import Mathlib

/-!
Verification development for the Rate My Professors scraping script
(src/part1.py).  The script drives a browser session per school, repeatedly
clicks a "Show More" control under a wall-clock budget, concurrently extracts
professor data from card elements (detaching each card from the DOM in a
finally block), and hides overlays that intercept the click.

The embedding below is a shallow model of that code.  The browser page is an
explicit state (a `Driver` record holding the attached cards, the batches
still revealable by "Show More" clicks, the overlay elements, a scripted
sequence of random pause durations, and a clock in seconds).  Python
exceptions are modelled by an `Except PyError` result; the `try/finally` in
`extract_prof_data` becomes a pair (result, detached card).  Rating and
difficulty are parsed with `float(...)` in the source; since no property here
depends on float arithmetic, a record stores the validated numeric text and
the model only checks that `float(...)` would accept it.  `int(...)` is
modelled faithfully (whitespace stripping, an optional sign, digits with
single underscore separators between digits).  Selenium's
ElementClickInterceptedException message is an externally produced free-text
string; the model carries, on each overlay, the list of class-attribute
occurrences that `re.findall` would return for that message (the script
itself only ever indexes into that list).
-/

deriving instance DecidableEq for Except

/-- Python exceptions that the script can raise or catch. -/
inductive PyError where
  | timeout
  | indexError
  | valueError
  | noSuchElement
  | runtimeError (msg : String)
deriving DecidableEq

/-- Strip ASCII whitespace from both ends, as `int(...)`/`float(...)` do. -/
def trimWs (cs : List Char) : List Char :=
  ((cs.dropWhile Char.isWhitespace).reverse.dropWhile Char.isWhitespace).reverse

/-- Value of a Python digit part after its first digit: digits with single
underscores allowed between digits. -/
def digitPartGo (acc : Nat) : List Char → Option Nat
  | [] => some acc
  | '_' :: c :: cs =>
      if c.isDigit then digitPartGo (10 * acc + (c.toNat - 48)) cs else none
  | '_' :: [] => none
  | c :: cs =>
      if c.isDigit then digitPartGo (10 * acc + (c.toNat - 48)) cs else none

/-- Value of a nonempty Python digit part (digits, single underscores only
between digits), or `none` if the character list is not one. -/
def digitPartVal : List Char → Option Nat
  | [] => none
  | c :: cs => if c.isDigit then digitPartGo (c.toNat - 48) cs else none

/-- Python's `int(str)`: optional surrounding whitespace, optional sign, then
a digit part.  Raises ValueError otherwise. -/
def pyInt (s : String) : Except PyError Int :=
  match trimWs s.toList with
  | '+' :: r =>
      match digitPartVal r with
      | some n => Except.ok (Int.ofNat n)
      | none => Except.error PyError.valueError
  | '-' :: r =>
      match digitPartVal r with
      | some n => Except.ok (- Int.ofNat n)
      | none => Except.error PyError.valueError
  | r =>
      match digitPartVal r with
      | some n => Except.ok (Int.ofNat n)
      | none => Except.error PyError.valueError

/-- Nonempty digit part recognizer. -/
def digitPartOk (cs : List Char) : Bool :=
  (digitPartVal cs).isSome

/-- Split a character list at the first character satisfying `p`; the second
component is `none` when no such character occurs. -/
def splitAtFirst (p : Char → Bool) : List Char → (List Char × Option (List Char))
  | [] => ([], none)
  | c :: cs =>
      if p c then ([], some cs)
      else
        let r := splitAtFirst p cs
        (c :: r.1, r.2)

/-- Mantissa of a Python float literal: `digits`, `digits.`, `.digits` or
`digits.digits` (underscore separators handled by the digit part). -/
def mantissaOk (cs : List Char) : Bool :=
  match splitAtFirst (fun c => c = '.') cs with
  | (ip, none) => digitPartOk ip
  | (ip, some fp) =>
      if fp.any (fun c => c = '.') then false
      else if ip.isEmpty then digitPartOk fp
      else if fp.isEmpty then digitPartOk ip
      else digitPartOk ip && digitPartOk fp

/-- Optionally signed digit part (the exponent of a float literal). -/
def signedDigitPartOk (cs : List Char) : Bool :=
  match cs with
  | '+' :: r => digitPartOk r
  | '-' :: r => digitPartOk r
  | r => digitPartOk r

/-- Whether Python's `float(str)` accepts the string: optional whitespace and
sign, then `inf`/`infinity`/`nan` (case-insensitive) or a float literal with
an optional exponent. -/
def pyFloatOk (s : String) : Bool :=
  let cs := trimWs s.toList
  let body :=
    match cs with
    | '+' :: r => r
    | '-' :: r => r
    | r => r
  let lower := body.map Char.toLower
  if lower = "inf".toList || lower = "infinity".toList || lower = "nan".toList then
    true
  else
    match splitAtFirst (fun c => c = 'e' || c = 'E') body with
    | (m, none) => mantissaOk m
    | (m, some ex) => mantissaOk m && signedDigitPartOk ex

/-- Python's `s[:-1]`: drop the last character (identity on the empty
string). -/
def strDropLast (s : String) : String :=
  String.mk s.toList.dropLast

/-- Lines 192-196 of `extract_prof_data`: the "would take again" text is the
sentinel `N/A` (absent value) or is converted with `int(text[:-1])`. -/
def parse_take_again (take_again_pct_text : String) : Except PyError (Option Int) :=
  if take_again_pct_text = "N/A" then Except.ok none
  else (pyInt (strDropLast take_again_pct_text)).map some

/-- One professor card (`TeacherCard` WebElement).  A `none` field means the
corresponding `find_element` call raises NoSuchElementException;
`feedbackTexts` holds the texts of the elements matched by
`FEEDBACK_SELECTOR` (the script indexes entries 0 and 1); `removed` is the
detached-from-the-DOM flag set by `free_card_memory`. -/
structure Card where
  nameText : Option String
  ratingText : Option String
  departmentText : Option String
  feedbackTexts : List String
  removed : Bool
deriving DecidableEq

/-- One row of the output table.  `rating` and `difficulty` keep the text the
script passed to `float(...)` (which accepted it); `takeAgainPct` is the
nullable integer column. -/
structure Record where
  name : String
  rating : String
  takeAgainPct : Option Int
  difficulty : String
  department : String
deriving DecidableEq

/-- Removes the card's node from the DOM via injected JavaScript.  In the
model the detachment is the `removed` flag. -/
def free_card_memory (card : Card) : Card :=
  { card with removed := true }

/-- A `find_element` text read: NoSuchElementException when the selector
matches nothing. -/
def getText (fieldVal : Option String) : Except PyError String :=
  match fieldVal with
  | some t => Except.ok t
  | none => Except.error PyError.noSuchElement

/-- Python list indexing `feedback[i].text`: IndexError when out of range. -/
def getFeedback (l : List String) (i : Nat) : Except PyError String :=
  match l.get? i with
  | some t => Except.ok t
  | none => Except.error PyError.indexError

/-- A `float(text)` call whose numeric value is not used further by the
script: ValueError when the text is not a float literal. -/
def pyFloatChecked (s : String) : Except PyError String :=
  if pyFloatOk s then Except.ok s else Except.error PyError.valueError

/-- The `try` block of `extract_prof_data`, in source order: name, rating
(read then `float`), department, both feedback texts, difficulty `float`,
then the would-take-again conversion. -/
def extract_fields (card : Card) : Except PyError Record :=
  match getText card.nameText with
  | Except.error e => Except.error e
  | Except.ok name =>
  match getText card.ratingText with
  | Except.error e => Except.error e
  | Except.ok rating_text =>
  match pyFloatChecked rating_text with
  | Except.error e => Except.error e
  | Except.ok rating =>
  match getText card.departmentText with
  | Except.error e => Except.error e
  | Except.ok department =>
  match getFeedback card.feedbackTexts 0 with
  | Except.error e => Except.error e
  | Except.ok take_again_pct_text =>
  match getFeedback card.feedbackTexts 1 with
  | Except.error e => Except.error e
  | Except.ok difficulty_text =>
  match pyFloatChecked difficulty_text with
  | Except.error e => Except.error e
  | Except.ok difficulty =>
  match parse_take_again take_again_pct_text with
  | Except.error e => Except.error e
  | Except.ok take_again_pct =>
      Except.ok
        { name := name, rating := rating, takeAgainPct := take_again_pct,
          difficulty := difficulty, department := department }

/-- `extract_prof_data`: the `try` body paired with the `finally` clause —
whatever the extraction result, the card is detached before returning. -/
def extract_prof_data (card : Card) : Except PyError Record × Card :=
  (extract_fields card, free_card_memory card)

/-- Propagate the first failure of a batch, in submission order, as
`list(executor.map(...))` does; otherwise collect all results. -/
def collectExcept : List (Except PyError Record) → Except PyError (List Record)
  | [] => Except.ok []
  | Except.error e :: _ => Except.error e
  | Except.ok r :: rest => (collectExcept rest).map (fun l => r :: l)

/-- An element that can intercept the "Show More" click.  `interceptMatches`
is the list that `re.findall` returns on the interception message this
element produces (the blocking element's own class is conventionally the
second entry, after the target button's); `displayNone` is set when
`hide_overlay` runs its JavaScript; `removed` would be set by a DOM removal,
which the script never performs on overlays. -/
structure Overlay where
  elClass : String
  interceptMatches : List String
  displayNone : Bool
  removed : Bool
deriving DecidableEq

/-- The per-session browser state.  `cards` are the professor cards currently
attached to the DOM; `detached` are cards removed by `free_card_memory`;
`moreBatches` are the card batches still revealable by successful "Show More"
clicks (when empty, the bounded wait for the control times out);
`overlays` is the stack of potential click obstructions; `pauses` scripts the
`random.uniform` pause durations (in whole seconds); `clock` is the current
wall-clock time in seconds. -/
structure Driver where
  cards : List Card
  detached : List Card
  moreBatches : List (List Card)
  overlays : List Overlay
  pauses : List Nat
  clock : Nat
deriving DecidableEq

/-- Bounded-wait timeout used by the script's WebDriverWait calls. -/
def MAX_WAIT : Nat := 4

/-- The pagination wall-clock budget of the source (seconds). -/
def MAX_SCROLL_TIME : Nat := 1200

/-- Inner thread-pool capacity: a fixed constant. -/
def MAX_INNER_THREADS : Nat := 6

/-- Outer thread-pool capacity, as a function of what `os.cpu_count()`
returns: `(os.cpu_count() or 4) // 2` — Python's `or` replaces a falsy
(`None` or `0`) count with 4. -/
def MAX_OUTER_THREADS (cpu_count : Option Nat) : Nat :=
  (match cpu_count with
   | none => 4
   | some 0 => 4
   | some n => n) / 2

/-- The `time.sleep(random.uniform(MIN_CLICK_PAUSE, MAX_CLICK_PAUSE))` at the
top of `click_showmore`: consume the next scripted pause duration. -/
def sleepPause (d : Driver) : Driver :=
  match d.pauses with
  | [] => { d with clock := d.clock + 1 }
  | p :: ps => { d with clock := d.clock + p, pauses := ps }

/-- First overlay that is rendered (in the DOM and not display-none): the one
whose interception an attempted click reports. -/
def visibleOverlay? (os : List Overlay) : Option Overlay :=
  os.find? (fun o => !o.displayNone && !o.removed)

/-- Set `style.display = none` on the first DOM element with the given class
(`presence_of_element_located` also finds already-hidden elements);
`none` when no overlay carries the class. -/
def hideFirst : List Overlay → String → Option (List Overlay)
  | [], _ => none
  | o :: os, cls =>
      if o.elClass = cls then some ({ o with displayNone := true } :: os)
      else (hideFirst os cls).map (fun os1 => o :: os1)

/-- `hide_overlay`: bounded wait for an element with the extracted class; on
success hide it via JavaScript, otherwise the wait raises TimeoutException
after `MAX_WAIT` seconds. -/
def hide_overlay (d : Driver) (el_class : String) : Except PyError Unit × Driver :=
  match hideFirst d.overlays el_class with
  | some os => (Except.ok (), { d with overlays := os })
  | none => (Except.error PyError.timeout, { d with clock := d.clock + MAX_WAIT })

/-- `click_showmore`: pause, then wait for the "Show More" control and click
it.  An interception is handled by extracting `matches[1]` from the failure
message (IndexError when fewer than two class occurrences), hiding that
element and recursing; the recursion carries no depth counter and never
consults the clock, so it is modelled on explicit fuel — a `none` result
means the call is still recursing after `fuel` activation attempts.  When no
overlay is rendered, the click succeeds if a batch remains, and otherwise the
bounded wait for the control raises TimeoutException. -/
def click_showmore : Nat → Driver → Option (Except PyError Unit × Driver)
  | 0, _ => none
  | fuel + 1, d =>
      let d1 := sleepPause d
      match visibleOverlay? d1.overlays with
      | some o =>
          match o.interceptMatches.get? 1 with
          | none => some (Except.error PyError.indexError, d1)
          | some el_class =>
              match hide_overlay d1 el_class with
              | (Except.error e, d2) => some (Except.error e, d2)
              | (Except.ok _, d2) => click_showmore fuel d2
      | none =>
          match d1.moreBatches with
          | [] => some (Except.error PyError.timeout, { d1 with clock := d1.clock + MAX_WAIT })
          | b :: bs => some (Except.ok (), { d1 with cards := d1.cards ++ b, moreBatches := bs })

/-- `store_and_delete_cards`: find all attached cards, extract them on the
inner pool (exiting the `with` block completes every future, so every card is
extracted and detached), then surface the first failure in submission order
via `list(results)`. -/
def store_and_delete_cards (d : Driver) : Except PyError (List Record) × Driver :=
  let pairs := d.cards.map extract_prof_data
  (collectExcept (pairs.map Prod.fst),
   { d with cards := [], detached := d.detached ++ pairs.map Prod.snd })

/-- The `while more_content and time.time() - start_time < MAX_SCROLL_TIME`
loop of `load_and_store_all_content`, returning the loop's exception result,
the final `more_content` flag (true at exit means the budget ended the loop
and `SCROLL_TIME_WARN` is emitted) and the driver.  Only TimeoutException is
caught; it sets `more_content` to false.  The loop fuel only models the
bounded number of iterations actually possible (each successful click
consumes one batch); `none` means fuel ran out before the loop ended. -/
def load_loop (mx start cf : Nat) : Nat → List Record → Driver →
    Option (Except PyError (List Record) × Bool × Driver)
  | 0, _, _ => none
  | fuel + 1, acc, d =>
      if d.clock - start < mx then
        match click_showmore cf d with
        | none => none
        | some (Except.error PyError.timeout, d1) => some (Except.ok acc, false, d1)
        | some (Except.error e, d1) => some (Except.error e, true, d1)
        | some (Except.ok _, d1) =>
            match store_and_delete_cards d1 with
            | (Except.error PyError.timeout, d2) => some (Except.ok acc, false, d2)
            | (Except.error e, d2) => some (Except.error e, true, d2)
            | (Except.ok recs, d2) => load_loop mx start cf fuel (acc ++ recs) d2
      else
        some (Except.ok acc, true, d)

/-- `load_and_store_all_content` with the budget `mx` as an explicit
parameter (the source reads the module constant `MAX_SCROLL_TIME`): extract
the initially visible cards, set `start_time`, run the loop, and pair the
records with the truncation flag (whether `SCROLL_TIME_WARN` was emitted). -/
def load_and_store_all_content (mx cf lf : Nat) (d : Driver) :
    Option (Except PyError (List Record × Bool) × Driver) :=
  match store_and_delete_cards d with
  | (Except.error e, d0) => some (Except.error e, d0)
  | (Except.ok recs, d0) =>
      match load_loop mx d0.clock cf lf recs d0 with
      | none => none
      | some (Except.error e, _, d1) => some (Except.error e, d1)
      | some (Except.ok recs1, more_content, d1) =>
          some (Except.ok (recs1, more_content), d1)

/-- `session_data`: run the pagination driver in a scoped browser session and
report the records, the truncation-warning flag and the empty-result
(`NO_DATA_WARN`) flag. -/
def session_data (mx cf lf : Nat) (d : Driver) :
    Option (Except PyError (List Record × Bool × Bool)) :=
  match load_and_store_all_content mx cf lf d with
  | none => none
  | some (Except.error e, _) => some (Except.error e)
  | some (Except.ok (recs, warned), _) =>
      some (Except.ok (recs, warned, recs.isEmpty))

/-- `save_school_data`: any exception from the session is caught and
re-raised as a RuntimeError naming the school (the source formats the school
with `!r`; the model keeps the plain name). -/
def save_school_data (mx cf lf : Nat) (school : String) (d : Driver) :
    Option (Except PyError (List Record × Bool × Bool)) :=
  match session_data mx cf lf d with
  | none => none
  | some (Except.ok r) => some (Except.ok r)
  | some (Except.error _) =>
      some (Except.error (PyError.runtimeError ("Failed to scrape RMP data for " ++ school)))

/-- A well-formed professor card (the fields of the end-to-end scenario). -/
def cardGood : Card :=
  { nameText := some "J. Smith", ratingText := some "4.1",
    departmentText := some "Math", feedbackTexts := [ "60%", "3.2" ],
    removed := false }

/-- The record extracted from `cardGood`. -/
def recordGood : Record :=
  { name := "J. Smith", rating := "4.1", takeAgainPct := some 60,
    difficulty := "3.2", department := "Math" }

/-- A card whose rating text is not numeric, so `float(...)` raises. -/
def cardBadRating : Card :=
  { nameText := some "A. Jones", ratingText := some "oops",
    departmentText := some "Math", feedbackTexts := [ "40%", "2.5" ],
    removed := false }

/-- A card whose would-take-again field reads `999%`. -/
def card999 : Card :=
  { nameText := some "J. Smith", ratingText := some "4.1",
    departmentText := some "Math", feedbackTexts := [ "999%", "3.2" ],
    removed := false }

/-- The record extracted from `card999`: the percentage passes through
unvalidated. -/
def record999 : Record :=
  { name := "J. Smith", rating := "4.1", takeAgainPct := some 999,
    difficulty := "3.2", department := "Math" }

/-- A quiescent driver holding one good card and nothing else. -/
def dInit : Driver :=
  { cards := [ cardGood ], detached := [], moreBatches := [], overlays := [],
    pauses := [], clock := 0 }

/-- The driver state after the initial extraction over `dInit`. -/
def dInit0 : Driver :=
  { cards := [], detached := [ free_card_memory cardGood ], moreBatches := [],
    overlays := [], pauses := [], clock := 0 }

/-- A driver whose initial batch contains one good card and one card with a
malformed rating. -/
def dBad : Driver :=
  { cards := [ cardGood, cardBadRating ], detached := [], moreBatches := [],
    overlays := [], pauses := [], clock := 0 }

/-- A driver observed at a late wall-clock time. -/
def dLate : Driver :=
  { cards := [], detached := [], moreBatches := [], overlays := [],
    pauses := [], clock := 10 }

/-- An overlay blocking the control, with the conventional two-entry match
list (target button class first, blocking class second). -/
def mkOverlay (btn nm : String) : Overlay :=
  { elClass := nm, interceptMatches := [ btn, nm ], displayNone := false,
    removed := false }

/-- A stack of rendered overlays over a common target control. -/
def stackOverlays (btn : String) (names : List String) : List Overlay :=
  names.map (mkOverlay btn)

/-- The same stack after every overlay has been hidden (still in the DOM). -/
def hiddenStack (btn : String) (names : List String) : List Overlay :=
  names.map (fun nm => { mkOverlay btn nm with displayNone := true })

/-- A driver far past any pagination deadline (its clock exceeds the whole
`MAX_SCROLL_TIME` budget measured from any earlier start), facing three
stacked overlays, with one batch still revealable. -/
def dOverlays : Driver :=
  { cards := [], detached := [],
    moreBatches := [ [ cardGood ] ],
    overlays := stackOverlays "ButtonCls" [ "ov1", "ov2", "ov3" ],
    pauses := [], clock := 1000000 }

/-- An overlay that reports only one class-attribute occurrence in its
interception message. -/
def overlayShort : Overlay :=
  { elClass := "ov1", interceptMatches := [ "ov1" ], displayNone := false,
    removed := false }

/-- A driver whose rendered overlay is `overlayShort`. -/
def dShortMatch : Driver :=
  { cards := [ cardGood ], detached := [],
    moreBatches := [ [ cardGood ] ],
    overlays := [ overlayShort ],
    pauses := [], clock := 0 }

/-- The driver state after the initial extraction over `dShortMatch`. -/
def dShortMatch0 : Driver :=
  { dShortMatch with cards := [], detached := [ free_card_memory cardGood ] }

/-- The driver state after the failing initial extraction over `dBad`: both
cards detached, the exception pending. -/
def dBad0 : Driver :=
  { dBad with cards := [], detached := [ free_card_memory cardGood, free_card_memory cardBadRating ] }


/-! Support lemmas about the driver-state operations. -/

theorem sleepPause_overlays (d : Driver) : (sleepPause d).overlays = d.overlays := by
  rcases d with ⟨c, de, mb, ov, ps, ck⟩
  cases ps <;> rfl

theorem sleepPause_cards (d : Driver) : (sleepPause d).cards = d.cards := by
  rcases d with ⟨c, de, mb, ov, ps, ck⟩
  cases ps <;> rfl

theorem sleepPause_moreBatches (d : Driver) : (sleepPause d).moreBatches = d.moreBatches := by
  rcases d with ⟨c, de, mb, ov, ps, ck⟩
  cases ps <;> rfl

theorem sleepPause_detached (d : Driver) : (sleepPause d).detached = d.detached := by
  rcases d with ⟨c, de, mb, ov, ps, ck⟩
  cases ps <;> rfl

theorem store_snd_overlays (d : Driver) : (store_and_delete_cards d).2.overlays = d.overlays := rfl

theorem store_snd_moreBatches (d : Driver) :
    (store_and_delete_cards d).2.moreBatches = d.moreBatches := rfl

theorem store_snd_pauses (d : Driver) : (store_and_delete_cards d).2.pauses = d.pauses := rfl

theorem store_snd_clock (d : Driver) : (store_and_delete_cards d).2.clock = d.clock := rfl

theorem store_snd_cards (d : Driver) : (store_and_delete_cards d).2.cards = [] := rfl

theorem find?_append_of_none {α : Type} (p : α → Bool) :
    ∀ (l1 l2 : List α), (∀ a ∈ l1, p a = false) → (l1 ++ l2).find? p = l2.find? p := by
  intro l1
  induction l1 with
  | nil => intro l2 _; rfl
  | cons a t ih =>
      intro l2 h
      have ha : p a = false := h a (by simp)
      rw [List.cons_append, List.find?_cons_of_neg _ (by simp [ha])]
      exact ih l2 (fun x hx => h x (by simp [hx]))

theorem visibleOverlay?_append_hidden (pre rest : List Overlay)
    (h : ∀ o ∈ pre, o.displayNone = true) :
    visibleOverlay? (pre ++ rest) = visibleOverlay? rest := by
  unfold visibleOverlay?
  apply find?_append_of_none
  intro o ho
  simp [h o ho]

theorem visibleOverlay?_stack_cons (btn nm : String) (names : List String) :
    visibleOverlay? (stackOverlays btn (nm :: names)) = some (mkOverlay btn nm) := rfl

theorem hideFirst_cons (o : Overlay) (os : List Overlay) (cls : String) :
    hideFirst (o :: os) cls
      = if o.elClass = cls then some ({ o with displayNone := true } :: os)
        else (hideFirst os cls).map (fun os1 => o :: os1) := rfl

theorem hideFirst_append_of_ne (cls : String) :
    ∀ (pre rest : List Overlay), (∀ o ∈ pre, o.elClass ≠ cls) →
    hideFirst (pre ++ rest) cls = (hideFirst rest cls).map (fun os => pre ++ os) := by
  intro pre
  induction pre with
  | nil =>
      intro rest _
      rw [List.nil_append]
      cases hideFirst rest cls <;> rfl
  | cons a t ih =>
      intro rest h
      have ha : a.elClass ≠ cls := h a (by simp)
      rw [List.cons_append, hideFirst_cons, if_neg ha,
        ih rest (fun x hx => h x (by simp [hx]))]
      cases hideFirst rest cls <;> rfl

theorem hideFirst_stack_head (btn nm : String) (names : List String) :
    hideFirst (stackOverlays btn (nm :: names)) nm
      = some ({ mkOverlay btn nm with displayNone := true } :: stackOverlays btn names) := by
  rw [show stackOverlays btn (nm :: names) = mkOverlay btn nm :: stackOverlays btn names from rfl,
    hideFirst_cons, if_pos (show (mkOverlay btn nm).elClass = nm from rfl)]

theorem mkOverlay_get1 (btn nm : String) :
    (mkOverlay btn nm).interceptMatches.get? 1 = some nm := rfl

theorem click_showmore_succ (fuel : Nat) (d : Driver) :
    click_showmore (fuel + 1) d =
      match visibleOverlay? (sleepPause d).overlays with
      | some o =>
          match o.interceptMatches.get? 1 with
          | none => some (Except.error PyError.indexError, sleepPause d)
          | some el_class =>
              match hide_overlay (sleepPause d) el_class with
              | (Except.error e, d2) => some (Except.error e, d2)
              | (Except.ok _, d2) => click_showmore fuel d2
      | none =>
          match (sleepPause d).moreBatches with
          | [] => some (Except.error PyError.timeout, { sleepPause d with clock := (sleepPause d).clock + MAX_WAIT })
          | b :: bs => some (Except.ok (), { sleepPause d with cards := (sleepPause d).cards ++ b, moreBatches := bs }) := rfl

/-- Behavior of `click_showmore` over a stack of distinct rendered overlays
preceded by already-hidden elements: with enough fuel, every overlay is
hidden in turn and the click then succeeds, consuming one batch. -/
theorem click_stack_ok (btn : String) (names : List String) :
    ∀ (pre : List Overlay) (d : Driver) (fuel : Nat) (b : List Card)
      (bs : List (List Card)),
      (∀ o ∈ pre, o.displayNone = true) →
      (∀ o ∈ pre, o.elClass ∉ names) →
      names.Nodup →
      d.overlays = pre ++ stackOverlays btn names →
      d.moreBatches = b :: bs →
      names.length < fuel →
      ∃ d1, click_showmore fuel d = some (Except.ok (), d1) ∧
        d1.overlays = pre ++ hiddenStack btn names ∧
        d1.cards = d.cards ++ b ∧
        d1.moreBatches = bs ∧
        d1.detached = d.detached := by
  induction names with
  | nil =>
      intro pre d fuel b bs hpre _ _ hov hmb hfuel
      simp only [List.length_nil] at hfuel
      cases fuel with
      | zero => omega
      | succ f =>
          have h1 : visibleOverlay? (sleepPause d).overlays = none := by
            rw [sleepPause_overlays, hov]
            rw [visibleOverlay?_append_hidden pre _ hpre]
            rfl
          have h2 : (sleepPause d).moreBatches = b :: bs := by
            rw [sleepPause_moreBatches, hmb]
          have hres : click_showmore (f + 1) d
              = some (Except.ok (), { sleepPause d with
                  cards := (sleepPause d).cards ++ b, moreBatches := bs }) := by
            rw [click_showmore_succ]
            simp only [h1, h2]
          refine ⟨_, hres, ?_, ?_, rfl, ?_⟩
          · show (sleepPause d).overlays = pre ++ hiddenStack btn []
            rw [sleepPause_overlays, hov]
            rfl
          · show (sleepPause d).cards ++ b = d.cards ++ b
            rw [sleepPause_cards]
          · show (sleepPause d).detached = d.detached
            exact sleepPause_detached d
  | cons nm rest ih =>
      intro pre d fuel b bs hpre hcls hnd hov hmb hfuel
      cases fuel with
      | zero => simp at hfuel
      | succ f =>
          have hvis : visibleOverlay? (sleepPause d).overlays = some (mkOverlay btn nm) := by
            rw [sleepPause_overlays, hov, visibleOverlay?_append_hidden pre _ hpre,
              visibleOverlay?_stack_cons]
          have hpre_ne : ∀ o ∈ pre, o.elClass ≠ nm := by
            intro o ho
            have hx := hcls o ho
            simp only [List.mem_cons, not_or] at hx
            exact hx.1
          have hhf : hideFirst (sleepPause d).overlays nm
              = some (pre ++ ({ mkOverlay btn nm with displayNone := true }
                  :: stackOverlays btn rest)) := by
            rw [sleepPause_overlays, hov, hideFirst_append_of_ne nm pre _ hpre_ne,
              hideFirst_stack_head]
            rfl
          obtain ⟨d1, hc, hov1, hcards1, hmb1, hdet1⟩ :=
            ih (pre ++ [{ mkOverlay btn nm with displayNone := true }])
              { sleepPause d with
                overlays := pre ++ ({ mkOverlay btn nm with displayNone := true }
                  :: stackOverlays btn rest) }
              f b bs
              (by
                intro o ho
                rcases List.mem_append.mp ho with h1 | h1
                · exact hpre o h1
                · simp only [List.mem_singleton] at h1
                  rw [h1])
              (by
                intro o ho
                rcases List.mem_append.mp ho with h1 | h1
                · have hx := hcls o h1
                  simp only [List.mem_cons, not_or] at hx
                  exact hx.2
                · simp only [List.mem_singleton] at h1
                  rw [h1]
                  exact (List.nodup_cons.mp hnd).1)
              (List.nodup_cons.mp hnd).2
              (by
                show pre ++ ({ mkOverlay btn nm with displayNone := true }
                  :: stackOverlays btn rest) = _
                rw [List.append_assoc, List.singleton_append])
              (by rw [sleepPause_moreBatches, hmb])
              (by simp only [List.length_cons] at hfuel; omega)
          refine ⟨d1, ?_, ?_, ?_, hmb1, ?_⟩
          · rw [click_showmore_succ]
            simp only [hvis, mkOverlay_get1, hide_overlay, hhf]
            exact hc
          · rw [hov1, List.append_assoc, List.singleton_append]
            rfl
          · rw [hcards1]
            show (sleepPause d).cards ++ b = d.cards ++ b
            rw [sleepPause_cards]
          · rw [hdet1]
            exact sleepPause_detached d

/-- With fuel at most the number of rendered overlays, `click_showmore` is
still recursing: one overlay is hidden per activation attempt, independently
of any wall-clock state. -/
theorem click_stack_none (btn : String) (names : List String) :
    ∀ (pre : List Overlay) (d : Driver) (fuel : Nat),
      (∀ o ∈ pre, o.displayNone = true) →
      (∀ o ∈ pre, o.elClass ∉ names) →
      names.Nodup →
      d.overlays = pre ++ stackOverlays btn names →
      fuel ≤ names.length →
      click_showmore fuel d = none := by
  induction names with
  | nil =>
      intro pre d fuel _ _ _ _ hfuel
      simp only [List.length_nil, Nat.le_zero] at hfuel
      rw [hfuel]
      rfl
  | cons nm rest ih =>
      intro pre d fuel hpre hcls hnd hov hfuel
      cases fuel with
      | zero => rfl
      | succ f =>
          have hvis : visibleOverlay? (sleepPause d).overlays = some (mkOverlay btn nm) := by
            rw [sleepPause_overlays, hov, visibleOverlay?_append_hidden pre _ hpre,
              visibleOverlay?_stack_cons]
          have hpre_ne : ∀ o ∈ pre, o.elClass ≠ nm := by
            intro o ho
            have hx := hcls o ho
            simp only [List.mem_cons, not_or] at hx
            exact hx.1
          have hhf : hideFirst (sleepPause d).overlays nm
              = some (pre ++ ({ mkOverlay btn nm with displayNone := true }
                  :: stackOverlays btn rest)) := by
            rw [sleepPause_overlays, hov, hideFirst_append_of_ne nm pre _ hpre_ne,
              hideFirst_stack_head]
            rfl
          rw [click_showmore_succ]
          simp only [hvis, mkOverlay_get1, hide_overlay, hhf]
          apply ih (pre ++ [{ mkOverlay btn nm with displayNone := true }])
          · intro o ho
            rcases List.mem_append.mp ho with h1 | h1
            · exact hpre o h1
            · simp only [List.mem_singleton] at h1
              rw [h1]
          · intro o ho
            rcases List.mem_append.mp ho with h1 | h1
            · have hx := hcls o h1
              simp only [List.mem_cons, not_or] at hx
              exact hx.2
            · simp only [List.mem_singleton] at h1
              rw [h1]
              exact (List.nodup_cons.mp hnd).1
          · exact (List.nodup_cons.mp hnd).2
          · show pre ++ ({ mkOverlay btn nm with displayNone := true }
              :: stackOverlays btn rest) = _
            rw [List.append_assoc, List.singleton_append]
          · simp only [List.length_cons] at hfuel
            omega

/-! Equation and stepping lemmas for the pagination loop. -/

theorem load_loop_succ (mx start cf fuel : Nat) (acc : List Record) (d : Driver) :
    load_loop mx start cf (fuel + 1) acc d =
      if d.clock - start < mx then
        match click_showmore cf d with
        | none => none
        | some (Except.error PyError.timeout, d1) => some (Except.ok acc, false, d1)
        | some (Except.error e, d1) => some (Except.error e, true, d1)
        | some (Except.ok _, d1) =>
            match store_and_delete_cards d1 with
            | (Except.error PyError.timeout, d2) => some (Except.ok acc, false, d2)
            | (Except.error e, d2) => some (Except.error e, true, d2)
            | (Except.ok recs, d2) => load_loop mx start cf fuel (acc ++ recs) d2
      else
        some (Except.ok acc, true, d) := rfl

theorem load_loop_stop_of_budget (mx start cf fuel : Nat) (acc : List Record)
    (d : Driver) (h : ¬ d.clock - start < mx) :
    load_loop mx start cf (fuel + 1) acc d = some (Except.ok acc, true, d) := by
  rw [load_loop_succ, if_neg h]

theorem click_showmore_timeout (cf : Nat) (d : Driver)
    (h1 : visibleOverlay? d.overlays = none) (h2 : d.moreBatches = []) :
    click_showmore (cf + 1) d
      = some (Except.error PyError.timeout,
          { sleepPause d with clock := (sleepPause d).clock + MAX_WAIT }) := by
  rw [click_showmore_succ]
  have h1' : visibleOverlay? (sleepPause d).overlays = none := by
    rw [sleepPause_overlays]
    exact h1
  have h2' : (sleepPause d).moreBatches = [] := by
    rw [sleepPause_moreBatches]
    exact h2
  simp only [h1', h2']

theorem load_loop_timeout_step (mx start cf fuel : Nat) (acc : List Record)
    (d : Driver) (ht : d.clock - start < mx)
    (hov : visibleOverlay? d.overlays = none) (hmb : d.moreBatches = []) :
    load_loop mx start (cf + 1) (fuel + 1) acc d
      = some (Except.ok acc, false,
          { sleepPause d with clock := (sleepPause d).clock + MAX_WAIT }) := by
  rw [load_loop_succ, if_pos ht, click_showmore_timeout cf d hov hmb]

/-! The claims. -/

/-- C1: whenever the pagination loop's re-check finds the wall-clock budget
exceeded, the loop terminates without raising and returns the records
extracted so far, flagged truncated (the `SCROLL_TIME_WARN` flag is true);
in particular, with a budget of 0, `load_and_store_all_content` returns
exactly the records extracted from the initial visible cards, flagged
truncated. -/
theorem budget_exceeded_truncates :
    (∀ (mx start cf fuel : Nat) (acc : List Record) (d : Driver),
      mx ≤ d.clock - start →
      load_loop mx start cf (fuel + 1) acc d = some (Except.ok acc, true, d)) ∧
    (∀ (cf lf : Nat) (d d0 : Driver) (recs : List Record),
      store_and_delete_cards d = (Except.ok recs, d0) →
      load_and_store_all_content 0 cf (lf + 1) d
        = some (Except.ok (recs, true), d0)) := by
  constructor
  · intro mx start cf fuel acc d h
    exact load_loop_stop_of_budget mx start cf fuel acc d (by omega)
  · intro cf lf d d0 recs hstore
    simp only [load_and_store_all_content, hstore]
    rw [load_loop_stop_of_budget 0 d0.clock cf lf recs d0 (by omega)]

/-- C1 witness: a concrete over-budget loop state returns its accumulator
flagged truncated, and a concrete session run with budget 0 returns the
initial extraction flagged truncated. -/
theorem budget_exceeded_truncates_witness :
    load_loop 5 0 1 1 [] dLate = some (Except.ok [], true, dLate) ∧
    load_and_store_all_content 0 1 1 dInit
      = some (Except.ok ([ recordGood ], true), dInit0) :=
  ⟨budget_exceeded_truncates.1 5 0 1 0 [] dLate (by decide),
   budget_exceeded_truncates.2 1 0 dInit dInit0 [ recordGood ] (by decide)⟩

/-- C5: when the bounded wait for the load-more control times out (no
overlay is rendered and no batch remains) inside the budget, the pagination
loop terminates successfully: the accumulated records are returned complete
and non-truncated (warning flag false) and the TimeoutException is not
propagated; a full session in that situation yields a complete,
non-truncated result. -/
theorem control_timeout_ends_pagination :
    (∀ (mx start cf fuel : Nat) (acc : List Record) (d : Driver),
      d.clock - start < mx →
      visibleOverlay? d.overlays = none →
      d.moreBatches = [] →
      ∃ d1, load_loop mx start (cf + 1) (fuel + 1) acc d
        = some (Except.ok acc, false, d1)) ∧
    (∀ (mx cf lf : Nat) (d d0 : Driver) (recs : List Record),
      store_and_delete_cards d = (Except.ok recs, d0) →
      0 < mx →
      visibleOverlay? d.overlays = none →
      d.moreBatches = [] →
      ∃ d1, load_and_store_all_content mx (cf + 1) (lf + 1) d
        = some (Except.ok (recs, false), d1)) := by
  constructor
  · intro mx start cf fuel acc d ht hov hmb
    exact ⟨_, load_loop_timeout_step mx start cf fuel acc d ht hov hmb⟩
  · intro mx cf lf d d0 recs hstore hmx hov hmb
    have hsnd : (store_and_delete_cards d).2 = d0 := congrArg Prod.snd hstore
    have hov0 : visibleOverlay? d0.overlays = none := by
      rw [← hsnd, store_snd_overlays]
      exact hov
    have hmb0 : d0.moreBatches = [] := by
      rw [← hsnd, store_snd_moreBatches]
      exact hmb
    have hrun : load_and_store_all_content mx (cf + 1) (lf + 1) d
        = some (Except.ok (recs, false),
            { sleepPause d0 with clock := (sleepPause d0).clock + MAX_WAIT }) := by
      simp only [load_and_store_all_content, hstore]
      rw [load_loop_timeout_step mx d0.clock cf lf recs d0 (by omega) hov0 hmb0]
    exact ⟨_, hrun⟩

/-- C5 witness: a concrete in-budget loop state with the control absent ends
the loop non-truncated, and a concrete full session with the control absent
returns its records complete and non-truncated. -/
theorem control_timeout_ends_pagination_witness :
    (∃ d1, load_loop 1200 0 1 1 [] dInit0 = some (Except.ok [], false, d1)) ∧
    (∃ d1, load_and_store_all_content 1200 1 1 dInit
      = some (Except.ok ([ recordGood ], false), d1)) :=
  ⟨control_timeout_ends_pagination.1 1200 0 0 0 [] dInit0 (by decide) (by decide) (by decide),
   control_timeout_ends_pagination.2 1200 0 0 dInit dInit0 [ recordGood ]
     (by decide) (by decide) (by decide) (by decide)⟩

/-- C2 counterexample: one card with a non-numeric rating in the initial
batch makes the whole session fail: `save_school_data` yields the wrapped
RuntimeError for that school instead of a result, refuting that a parse
failure does not make the session fail. -/
theorem parse_failure_fails_session_cex :
    save_school_data 1200 1 1 "Acadia University" dBad
      = some (Except.error
          (PyError.runtimeError "Failed to scrape RMP data for Acadia University")) := by
  decide

/-- C2 amended: a parse failure in one card is contained within that card's
extraction -- every card of the batch is still extracted and detached
(`store_and_delete_cards` detaches all cards and each card's result is its
own extraction) -- but collecting the batch raises the first failure, and the
session then fails, wrapped with the school's name. -/
theorem parse_failure_batch_processed_session_fails :
    (∀ d : Driver,
      (store_and_delete_cards d).2.detached
          = d.detached ++ d.cards.map free_card_memory ∧
      (store_and_delete_cards d).2.cards = [] ∧
      (store_and_delete_cards d).1 = collectExcept (d.cards.map extract_fields)) ∧
    (∀ (mx cf lf : Nat) (school : String) (d d1 : Driver) (e : PyError),
      store_and_delete_cards d = (Except.error e, d1) →
      save_school_data mx cf lf school d
        = some (Except.error
            (PyError.runtimeError ("Failed to scrape RMP data for " ++ school)))) := by
  constructor
  · intro d
    refine ⟨?_, rfl, ?_⟩
    · show d.detached ++ (d.cards.map extract_prof_data).map Prod.snd = _
      rw [List.map_map]
      rfl
    · show collectExcept ((d.cards.map extract_prof_data).map Prod.fst) = _
      rw [List.map_map]
      rfl
  · intro mx cf lf school d d1 e hstore
    simp only [save_school_data, session_data, load_and_store_all_content, hstore]

/-- C2 amended witness: the mixed batch `dBad` detaches both cards, and the
session for it fails wrapped with the school's name. -/
theorem parse_failure_batch_processed_session_fails_witness :
    ((store_and_delete_cards dBad).2.detached
        = dBad.detached ++ dBad.cards.map free_card_memory ∧
      (store_and_delete_cards dBad).2.cards = [] ∧
      (store_and_delete_cards dBad).1 = collectExcept (dBad.cards.map extract_fields)) ∧
    save_school_data 900 2 2 "Carleton University" dBad
      = some (Except.error
          (PyError.runtimeError ("Failed to scrape RMP data for " ++ "Carleton University"))) :=
  ⟨parse_failure_batch_processed_session_fails.1 dBad,
   parse_failure_batch_processed_session_fails.2 900 2 2 "Carleton University" dBad dBad0
     PyError.valueError (by decide)⟩

/-- C3 counterexample: the string 37 matches neither digits-percent nor the
sentinel, yet parsing succeeds (yielding 3), because the code just drops the
last character before calling `int`. -/
theorem take_again_parse_cex :
    parse_take_again "37" = Except.ok (some 3) := by
  decide

/-- C3 amended: the spec's example mapping holds, and on every non-sentinel
input the parser drops the last character and applies Python integer parsing
to the remainder, failing exactly when that remainder is not an integer
literal -- so some strings not matching digits-percent also parse (e.g. 37
yields 3). -/
theorem take_again_parse_spec :
    parse_take_again "0%" = Except.ok (some 0) ∧
    parse_take_again "100%" = Except.ok (some 100) ∧
    parse_take_again "N/A" = Except.ok none ∧
    parse_take_again "37%" = Except.ok (some 37) ∧
    (∀ s : String, s ≠ "N/A" →
      parse_take_again s = (pyInt (strDropLast s)).map some) := by
  refine ⟨by decide, by decide, by decide, by decide, ?_⟩
  intro s hs
  unfold parse_take_again
  rw [if_neg hs]

/-- C3 amended witness: a malformed input fails exactly as the underlying
integer parse of its last-character-dropped remainder does. -/
theorem take_again_parse_spec_witness :
    parse_take_again "abc%" = (pyInt (strDropLast "abc%")).map some :=
  take_again_parse_spec.2.2.2.2 "abc%" (by decide)

/-- C4: for every panel handle given to the Record Extractor, the panel is
detached before the extractor returns, on every exit path: the state
component of `extract_prof_data` is always the card with its `removed` flag
set, whether the result component is a Record or an error. -/
theorem extractor_always_detaches_panel (card : Card) :
    ((extract_prof_data card).2).removed = true ∧
    (extract_prof_data card).2 = free_card_memory card :=
  ⟨rfl, rfl⟩

/-- C4 witness: a card whose extraction fails is detached all the same. -/
theorem extractor_always_detaches_panel_witness :
    ((extract_prof_data cardBadRating).2).removed = true ∧
    (extract_prof_data cardBadRating).2 = free_card_memory cardBadRating :=
  extractor_always_detaches_panel cardBadRating

/-- C6 counterexample: with 2 processing units reported the outer cap is 1,
below the claimed effective minimum of 2 (and with 1 unit it is 0, an
invalid pool size). -/
theorem outer_threads_cex :
    MAX_OUTER_THREADS (some 2) = 1 ∧
    ¬ 2 ≤ MAX_OUTER_THREADS (some 2) ∧
    MAX_OUTER_THREADS (some 1) = 0 := by
  decide

/-- C6 amended: the outer cap is half the reported unit count, with fallback
count 4 (hence cap 2) when the count is unavailable or zero (Python
falsiness); no minimum of 2 is enforced, so 2 or 3 units give cap 1 and 1
unit gives cap 0; the inner cap is the fixed constant 6, independent of
hardware. -/
theorem thread_pool_sizing :
    MAX_OUTER_THREADS none = 2 ∧
    (∀ n : Nat, MAX_OUTER_THREADS (some (n + 1)) = (n + 1) / 2) ∧
    MAX_INNER_THREADS = 6 := by
  refine ⟨rfl, ?_, rfl⟩
  intro n
  rfl

/-- C6 amended witness: ten reported units give an outer cap of five. -/
theorem thread_pool_sizing_witness :
    MAX_OUTER_THREADS (some 10) = 5 :=
  thread_pool_sizing.2.1 9

/-- C7 counterexample: the obstruction-resolution recursion is not bounded by
the pagination wall-clock budget.  `dOverlays` sits past the entire
`MAX_SCROLL_TIME` budget, yet `click_showmore` is still recursing after 3
activation attempts (one per stacked overlay) and only returns on the 4th --
the recursion depth tracks the overlays, not the clock. -/
theorem obstruction_recursion_ignores_budget_cex :
    MAX_SCROLL_TIME < dOverlays.clock ∧
    click_showmore 3 dOverlays = none ∧
    (click_showmore 4 dOverlays).isSome = true := by
  decide

/-- C7 amended: the recursion in `click_showmore` is bounded neither by a
depth counter nor by the wall-clock budget -- it never reads the elapsed
time.  For any driver state (any clock value) facing n distinct rendered
overlays, it is still recursing after up to n activation attempts, so a page
presenting an unbounded sequence of new overlays recurses without bound. -/
theorem obstruction_recursion_unbounded (btn : String) (names : List String)
    (d : Driver) (fuel : Nat)
    (hnd : names.Nodup) (hov : d.overlays = stackOverlays btn names)
    (hfuel : fuel ≤ names.length) :
    click_showmore fuel d = none :=
  click_stack_none btn names [] d fuel
    (fun o ho => absurd ho (List.not_mem_nil o))
    (fun o ho => absurd ho (List.not_mem_nil o))
    hnd (by rw [List.nil_append]; exact hov) hfuel

/-- C7 amended witness: the concrete three-overlay page keeps the resolver
recursing after two attempts even though the clock is far past the budget. -/
theorem obstruction_recursion_unbounded_witness :
    click_showmore 2 dOverlays = none :=
  obstruction_recursion_unbounded "ButtonCls" [ "ov1", "ov2", "ov3" ] dOverlays 2
    (by decide) rfl (by decide)

/-- C8: on an intercepted activation the resolver takes the blocking
element's class from the failure detail (the second match entry), hides that
element -- display-none, still present in the document, never removed -- and
re-attempts the activation; with N stacked overlays, each interception
reporting the top rendered one, all N end up hidden (and none removed)
before the control's activation finally succeeds and reveals the next
batch. -/
theorem stacked_overlays_all_resolved (btn : String) (names : List String)
    (d : Driver) (fuel : Nat) (b : List Card) (bs : List (List Card))
    (hnd : names.Nodup) (hov : d.overlays = stackOverlays btn names)
    (hmb : d.moreBatches = b :: bs) (hfuel : names.length < fuel) :
    ∃ d1, click_showmore fuel d = some (Except.ok (), d1) ∧
      d1.overlays = hiddenStack btn names ∧
      (∀ o ∈ d1.overlays, o.displayNone = true ∧ o.removed = false) ∧
      d1.cards = d.cards ++ b ∧ d1.moreBatches = bs := by
  obtain ⟨d1, h1, h2, h3, h4, _⟩ :=
    click_stack_ok btn names [] d fuel b bs
      (fun o ho => absurd ho (List.not_mem_nil o))
      (fun o ho => absurd ho (List.not_mem_nil o))
      hnd (by rw [List.nil_append]; exact hov) hmb hfuel
  rw [List.nil_append] at h2
  refine ⟨d1, h1, h2, ?_, h3, h4⟩
  intro o ho
  rw [h2] at ho
  unfold hiddenStack at ho
  obtain ⟨nm, _, rfl⟩ := List.mem_map.mp ho
  exact ⟨rfl, rfl⟩

/-- C8 witness: the three stacked overlays of `dOverlays` are all hidden and
none removed before the click succeeds on the fourth attempt, revealing the
pending batch. -/
theorem stacked_overlays_all_resolved_witness :
    ∃ d1, click_showmore 4 dOverlays = some (Except.ok (), d1) ∧
      d1.overlays = hiddenStack "ButtonCls" [ "ov1", "ov2", "ov3" ] ∧
      (∀ o ∈ d1.overlays, o.displayNone = true ∧ o.removed = false) ∧
      d1.cards = dOverlays.cards ++ [ cardGood ] ∧ d1.moreBatches = [] :=
  stacked_overlays_all_resolved "ButtonCls" [ "ov1", "ov2", "ov3" ] dOverlays 4
    [ cardGood ] [] (by decide) rfl rfl (by decide)

/-- C10: when an interception's message carries fewer than two
class-attribute occurrences -- even if one is present -- `matches[1]` raises
an IndexError that `click_showmore` does not handle; the pagination loop
only catches TimeoutException, so the error propagates and the session fails
(re-raised wrapped with the school's name). -/
theorem short_intercept_matches_fatal (mx cf lf : Nat) (school : String)
    (d d0 : Driver) (recs : List Record) (o : Overlay)
    (hstore : store_and_delete_cards d = (Except.ok recs, d0))
    (hov : visibleOverlay? d.overlays = some o)
    (hm : o.interceptMatches.length < 2)
    (hmx : 0 < mx) :
    click_showmore (cf + 1) d0 = some (Except.error PyError.indexError, sleepPause d0) ∧
    save_school_data mx (cf + 1) (lf + 1) school d
      = some (Except.error
          (PyError.runtimeError ("Failed to scrape RMP data for " ++ school))) := by
  have hsnd : (store_and_delete_cards d).2 = d0 := congrArg Prod.snd hstore
  have hov0 : visibleOverlay? d0.overlays = some o := by
    rw [← hsnd, store_snd_overlays]
    exact hov
  have hget : o.interceptMatches.get? 1 = none :=
    List.get?_eq_none.mpr (by omega)
  have hclick : click_showmore (cf + 1) d0
      = some (Except.error PyError.indexError, sleepPause d0) := by
    rw [click_showmore_succ]
    have hvo : visibleOverlay? (sleepPause d0).overlays = some o := by
      rw [sleepPause_overlays]
      exact hov0
    simp only [hvo, hget]
  refine ⟨hclick, ?_⟩
  simp only [save_school_data, session_data, load_and_store_all_content, hstore]
  rw [load_loop_succ, if_pos (by rw [Nat.sub_self]; exact hmx), hclick]

/-- C10 witness: the concrete one-match overlay of `dShortMatch` raises the
IndexError on the first click attempt and the whole session fails wrapped
with the school's name. -/
theorem short_intercept_matches_fatal_witness :
    click_showmore 1 dShortMatch0
      = some (Except.error PyError.indexError, sleepPause dShortMatch0) ∧
    save_school_data 1200 1 1 "Mount Allison University" dShortMatch
      = some (Except.error
          (PyError.runtimeError ("Failed to scrape RMP data for " ++ "Mount Allison University"))) :=
  short_intercept_matches_fatal 1200 0 0 "Mount Allison University" dShortMatch
    dShortMatch0 [ recordGood ] overlayShort (by decide) (by decide) (by decide) (by decide)

/-- C9 counterexample: a card whose would-take-again field reads 999 percent
yields a Record whose percentage is 999, outside 0-100 -- the extractor
performs no range validation. -/
theorem take_again_range_cex :
    (extract_prof_data card999).1 = Except.ok record999 ∧
    record999.takeAgainPct = some 999 ∧
    ¬ (999 : Int) ≤ 100 := by
  decide

/-- C9 amended: every Record constructed by the extractor has a
wouldTakeAgainPct that is either absent (sentinel input) or exactly the
integer Python parses from the feedback text minus its last character; no
0-100 range check is applied, so any parseable integer (e.g. 999) passes
through. -/
theorem take_again_passthrough (card : Card) (r : Record)
    (h : (extract_prof_data card).1 = Except.ok r) :
    r.takeAgainPct = none ∨
    ∃ t n, card.feedbackTexts.get? 0 = some t ∧
      pyInt (strDropLast t) = Except.ok n ∧ r.takeAgainPct = some n := by
  have hf : extract_fields card = Except.ok r := h
  unfold extract_fields at hf
  cases h1 : getText card.nameText with
  | error e => rw [h1] at hf; exact Except.noConfusion hf
  | ok name =>
    simp only [h1] at hf
    cases h2 : getText card.ratingText with
    | error e => rw [h2] at hf; exact Except.noConfusion hf
    | ok rtx =>
      simp only [h2] at hf
      cases h3 : pyFloatChecked rtx with
      | error e => rw [h3] at hf; exact Except.noConfusion hf
      | ok rat =>
        simp only [h3] at hf
        cases h4 : getText card.departmentText with
        | error e => rw [h4] at hf; exact Except.noConfusion hf
        | ok dep =>
          simp only [h4] at hf
          cases h5 : getFeedback card.feedbackTexts 0 with
          | error e => rw [h5] at hf; exact Except.noConfusion hf
          | ok t =>
            simp only [h5] at hf
            cases h6 : getFeedback card.feedbackTexts 1 with
            | error e => rw [h6] at hf; exact Except.noConfusion hf
            | ok dtx =>
              simp only [h6] at hf
              cases h7 : pyFloatChecked dtx with
              | error e => rw [h7] at hf; exact Except.noConfusion hf
              | ok diff =>
                simp only [h7] at hf
                cases h8 : parse_take_again t with
                | error e => rw [h8] at hf; exact Except.noConfusion hf
                | ok ta =>
                  simp only [h8] at hf
                  have hr : Record.mk name rat ta diff dep = r := Except.ok.inj hf
                  subst hr
                  have hget : card.feedbackTexts.get? 0 = some t := by
                    unfold getFeedback at h5
                    cases hg : card.feedbackTexts.get? 0 with
                    | none => rw [hg] at h5; exact Except.noConfusion h5
                    | some t0 =>
                        rw [hg] at h5
                        exact congrArg some (Except.ok.inj h5)
                  unfold parse_take_again at h8
                  by_cases hna : t = "N/A"
                  · rw [if_pos hna] at h8
                    left
                    exact (Except.ok.inj h8).symm
                  · rw [if_neg hna] at h8
                    cases hp : pyInt (strDropLast t) with
                    | error e => rw [hp] at h8; exact Except.noConfusion h8
                    | ok n =>
                        rw [hp] at h8
                        right
                        exact ⟨t, n, hget, hp, (Except.ok.inj h8).symm⟩

/-- C9 amended witness: the 999-percent card instantiates the passthrough:
its record's percentage is exactly the parsed 999. -/
theorem take_again_passthrough_witness :
    record999.takeAgainPct = none ∨
    ∃ t n, card999.feedbackTexts.get? 0 = some t ∧
      pyInt (strDropLast t) = Except.ok n ∧ record999.takeAgainPct = some n :=
  take_again_passthrough card999 record999 (by decide)
